import Mathlib

/-!
Verification of the kgame reconciliation core.

This file shallowly embeds the Go source of the kgame repository
(packages pkg/controllers/gatewayclass, pkg/controllers/gateway and
pkg/tunables) as pure Lean functions, and proves or refutes the
specification claims about it.

Modelling conventions:
* A Kubernetes object is a record; machine timestamps are abstract Nat
  values supplied as an explicit argument wherever the Go code calls
  metav1.Now().
* The object store is deterministic and sequential in a single
  reconcile, so retry.RetryOnConflict (which retries only on
  optimistic-concurrency Conflict errors) executes its closure exactly
  once; the closure body is embedded directly.
* Go slice semantics matter for mutateConditions: replacing an element
  at an index below the slice length is visible to the caller, while
  appending is not (the caller keeps its own slice header). Both views
  are defined below and the reconciler uses the caller-visible one,
  exactly as gateway.go does when it discards the return value of
  mutateConditions.
-/

/-- Embedding of metav1.Condition (the fields the program uses).
Status and reason are strings in Go (metav1.ConditionStatus is a string
type with values "True", "False", "Unknown"). -/
structure Condition where
  condType : String
  status : String
  reason : String
  message : String
  lastTransitionTime : Nat
  observedGeneration : Int
deriving DecidableEq, Repr

/-- Embedding of gatewayv1.GatewayClass: the fields read or written by
the program. controllerName is Spec.ControllerName; conditions is
Status.Conditions; managedFields abstracts ObjectMeta.ManagedFields as
an opaque list. -/
structure GatewayClass where
  name : String
  controllerName : String
  generation : Int
  deletionTimestamp : Option Nat
  finalizers : List String
  conditions : List Condition
  managedFields : List String
deriving DecidableEq, Repr

/-- Embedding of gatewayv1.Gateway: the fields read or written by the
program. gatewayClassName is Spec.GatewayClassName. -/
structure Gateway where
  name : String
  gatewayClassName : String
  generation : Int
  deletionTimestamp : Option Nat
  finalizers : List String
  conditions : List Condition
deriving DecidableEq, Repr

/-- Outcome of an optional caller-supplied hook (AddFinalizerFunc /
RemoveFinalizerFunc): the Go field is nil (notConfigured), or a function
that, in the reconcile under consideration, returns nil (ok) or an
error with the given message (fail). -/
inductive HookResult where
  | notConfigured
  | ok
  | fail (msg : String)
deriving DecidableEq, Repr

/-- Whether the hook is configured and fails. -/
def HookResult.isFail : HookResult → Bool
  | .fail _ => true
  | _ => false

/-- Whether the hook is configured (the Go function pointer is non-nil). -/
def HookResult.isConfigured : HookResult → Bool
  | .notConfigured => false
  | _ => true

/-- Embedding of sigs.k8s.io/controller-runtime controllerutil.AddFinalizer:
returns the new finalizer list and whether it changed (the finalizer is
appended only when absent; set semantics). -/
def addFinalizer (finalizers : List String) (f : String) : List String × Bool :=
  if finalizers.contains f then (finalizers, false) else (finalizers ++ [f], true)

/-- Embedding of sigs.k8s.io/controller-runtime controllerutil.RemoveFinalizer:
filters out every occurrence and reports whether the list changed. -/
def removeFinalizer (finalizers : List String) (f : String) : List String × Bool :=
  (finalizers.filter (fun e => !(e == f)), finalizers.contains f)

namespace gatewayclass

/-- Embedding of gatewayclass.go markAsAccepted: iterates over the
conditions slice and overwrites, in place, every entry whose Type is
"Accepted" with the canonical accepted condition. There is no append
branch: an absent Accepted condition is not created. In-place index
assignment on a Go slice is visible to the caller, hence the map. -/
def markAsAccepted (conditions : List Condition) (generation : Int) (now : Nat) :
    List Condition :=
  conditions.map (fun cond =>
    if cond.condType = "Accepted" then
      { condType := "Accepted"
        status := "True"
        reason := "Accepted"
        message := "GatewayClass is accepted"
        lastTransitionTime := now
        observedGeneration := generation }
    else cond)

end gatewayclass

namespace gateway

/-- The condition value built at the top of gateway.go mutateConditions. -/
def newConditionOf (condtype reason status message : String) (generation : Int)
    (now : Nat) : Condition :=
  { condType := condtype
    status := status
    reason := reason
    message := message
    lastTransitionTime := now
    observedGeneration := generation }

/-- Embedding of gateway.go mutateConditions as the value it RETURNS:
scan for the first entry whose Type matches, replace it in place and
stop; if none matches, append the new condition at the end. -/
def mutateConditions (conditions : List Condition) (condtype reason status : String)
    (message : String) (generation : Int) (now : Nat) : List Condition :=
  let nc := newConditionOf condtype reason status message generation now
  go nc conditions
where
  /-- Replace the first entry of matching type, else append at the end. -/
  go (nc : Condition) : List Condition → List Condition
    | [] => [nc]
    | c :: rest => if c.condType = nc.condType then nc :: rest else c :: go nc rest

/-- The caller-visible effect of gateway.go mutateConditions on the
argument slice: gateway.Reconcile discards the returned slice, so only
the in-place replacement of an existing entry (an index below the
caller slice length) is observable; an appended entry lies beyond the
caller's length and is lost. -/
def mutateConditionsInPlace (conditions : List Condition)
    (condtype reason status : String) (message : String) (generation : Int)
    (now : Nat) : List Condition :=
  let nc := newConditionOf condtype reason status message generation now
  go nc conditions
where
  /-- Replace the first entry of matching type; no append branch is
  visible to the caller. -/
  go (nc : Condition) : List Condition → List Condition
    | [] => []
    | c :: rest => if c.condType = nc.condType then nc :: rest else c :: go nc rest

end gateway

namespace gatewayclass

/-- Embedding of gatewayclass.GatewayClassOptions. -/
structure GatewayClassOptions where
  finalizerName : String
  addFinalizerFunc : HookResult
  removeFinalizerFunc : HookResult
deriving DecidableEq, Repr

/-- Observable outcome of one gatewayclass.Reconcile call against the
deterministic store: the persisted object afterwards (none when the
object was absent), the returned error (none for nil), counts of object
and status write attempts, and whether each hook ran. -/
structure ReconcileResult where
  persisted : Option GatewayClass
  error : Option String
  objectWrites : Nat
  statusWrites : Nat
  addHookInvoked : Bool
  removeHookInvoked : Bool
deriving DecidableEq, Repr

/-- The closure passed to retry.RetryOnConflict in gatewayclass.Reconcile.
The re-fetch inside the closure returns the same object in this
sequential model (no concurrent writer), so the object is a parameter.
If the configured finalizer is absent (and the name non-empty),
controllerutil.AddFinalizer mutates the in-memory object, the pre-add
hook runs (a failure aborts before any write), and the object is
updated; otherwise markAsAccepted rewrites the conditions slice in
place and only the status is updated. -/
def retryBody (gc : GatewayClass) (opts : GatewayClassOptions) (now : Nat) :
    ReconcileResult :=
  if opts.finalizerName ≠ "" ∧ ¬ gc.finalizers.contains opts.finalizerName then
    let gcAdded := { gc with finalizers := (addFinalizer gc.finalizers opts.finalizerName).1 }
    match opts.addFinalizerFunc with
    | .fail msg =>
      { persisted := some gc
        error := some ("error executing pre-finalizer add function: " ++ msg)
        objectWrites := 0, statusWrites := 0
        addHookInvoked := true, removeHookInvoked := false }
    | .ok =>
      { persisted := some gcAdded, error := none
        objectWrites := 1, statusWrites := 0
        addHookInvoked := true, removeHookInvoked := false }
    | .notConfigured =>
      { persisted := some gcAdded, error := none
        objectWrites := 1, statusWrites := 0
        addHookInvoked := false, removeHookInvoked := false }
  else
    let gcMarked := { gc with conditions := markAsAccepted gc.conditions gc.generation now }
    { persisted := some gcMarked, error := none
      objectWrites := 0, statusWrites := 1
      addHookInvoked := false, removeHookInvoked := false }

/-- Embedding of gatewayclass.Reconcile. The store argument is the
persisted object (none models NotFound, which the code treats as
success). When the deletion timestamp is set and RemoveFinalizer
reports a change, the pre-remove hook runs (a failure returns a wrapped
error before the update) and the object with the finalizer filtered out
is written; otherwise control falls through to the RetryOnConflict
block, which runs once here because the deterministic store never
returns a Conflict. -/
def Reconcile (store : Option GatewayClass) (opts : GatewayClassOptions)
    (now : Nat) : ReconcileResult :=
  match store with
  | none =>
    { persisted := none, error := none, objectWrites := 0, statusWrites := 0
      addHookInvoked := false, removeHookInvoked := false }
  | some gc =>
    if gc.deletionTimestamp.isSome ∧ opts.finalizerName ≠ "" ∧
        gc.finalizers.contains opts.finalizerName then
      let gcRemoved := { gc with finalizers := (removeFinalizer gc.finalizers opts.finalizerName).1 }
      match opts.removeFinalizerFunc with
      | .fail msg =>
        { persisted := some gc
          error := some ("error executing pre-finalizer removal function: " ++ msg)
          objectWrites := 0, statusWrites := 0
          addHookInvoked := false, removeHookInvoked := true }
      | .ok =>
        { persisted := some gcRemoved, error := none
          objectWrites := 1, statusWrites := 0
          addHookInvoked := false, removeHookInvoked := true }
      | .notConfigured =>
        { persisted := some gcRemoved, error := none
          objectWrites := 1, statusWrites := 0
          addHookInvoked := false, removeHookInvoked := false }
    else
      retryBody gc opts now

end gatewayclass

namespace gateway

/-- Embedding of gateway.GatewayOptions. -/
structure GatewayOptions where
  finalizerName : String
  addFinalizerFunc : HookResult
  removeFinalizerFunc : HookResult
deriving DecidableEq, Repr

/-- Injected outcomes of the store writes that gateway.Reconcile may
attempt, in program order: the object patch (finalizer add or remove)
and the two status patches. none models a nil error; some is the error
message the store returns. -/
structure StoreBehavior where
  patchError : Option String
  acceptedPatchError : Option String
  programmedPatchError : Option String
deriving DecidableEq, Repr

/-- Observable outcome of one gateway.Reconcile call: the persisted
object afterwards, the returned error, write-attempt counts and hook
invocations. A failed patch leaves the persisted object unchanged. -/
structure ReconcileResult where
  persisted : Option Gateway
  error : Option String
  objectWrites : Nat
  statusWrites : Nat
  addHookInvoked : Bool
  removeHookInvoked : Bool
deriving DecidableEq, Repr

/-- The tail of gateway.Reconcile after finalizer handling: the two
mutateConditions calls (whose return values the Go code DISCARDS, so
only the caller-visible in-place effect reaches the object) followed by
the two Status().Patch calls. gw is the in-memory object at this point;
persistedGw the store content; objWrites and addInvoked carry what the
finalizer step already did. -/
def statusPhase (gw persistedGw : Gateway) (beh : StoreBehavior)
    (objWrites : Nat) (addInvoked : Bool) (now : Nat) : ReconcileResult :=
  let conds1 := mutateConditionsInPlace gw.conditions "Accepted" "Accepted" "True"
    "Gateway is accepted" gw.generation now
  match beh.acceptedPatchError with
  | some e =>
    { persisted := some persistedGw
      error := some ("error adding accepted condition on " ++ gw.name ++ ": " ++ e)
      objectWrites := objWrites, statusWrites := 1
      addHookInvoked := addInvoked, removeHookInvoked := false }
  | none =>
    let persisted1 := { persistedGw with conditions := conds1 }
    let conds2 := mutateConditionsInPlace conds1 "Programmed" "Programmed" "True"
      "Gateway is programmed" gw.generation now
    match beh.programmedPatchError with
    | some e =>
      { persisted := some persisted1
        error := some ("error adding programmed condition on " ++ gw.name ++ ": " ++ e)
        objectWrites := objWrites, statusWrites := 2
        addHookInvoked := addInvoked, removeHookInvoked := false }
    | none =>
      { persisted := some { persisted1 with conditions := conds2 }, error := none
        objectWrites := objWrites, statusWrites := 2
        addHookInvoked := addInvoked, removeHookInvoked := false }

/-- Embedding of gateway.Reconcile. Terminating objects that carry the
configured finalizer take the removal branch (hook, then a patch) and
return. Every other object falls through: the finalizer is added if
absent (hook, then a patch; a patch failure returns early), and then
the status phase runs unconditionally. -/
def Reconcile (store : Option Gateway) (opts : GatewayOptions)
    (beh : StoreBehavior) (now : Nat) : ReconcileResult :=
  match store with
  | none =>
    { persisted := none, error := none, objectWrites := 0, statusWrites := 0
      addHookInvoked := false, removeHookInvoked := false }
  | some gw =>
    if gw.deletionTimestamp.isSome ∧ opts.finalizerName ≠ "" ∧
        gw.finalizers.contains opts.finalizerName then
      let gwRemoved := { gw with finalizers := (removeFinalizer gw.finalizers opts.finalizerName).1 }
      match opts.removeFinalizerFunc with
      | .fail msg =>
        { persisted := some gw
          error := some ("error executing pre-finalizer removal function: " ++ msg)
          objectWrites := 0, statusWrites := 0
          addHookInvoked := false, removeHookInvoked := true }
      | hr =>
        match beh.patchError with
        | some e =>
          { persisted := some gw, error := some e
            objectWrites := 1, statusWrites := 0
            addHookInvoked := false, removeHookInvoked := hr.isConfigured }
        | none =>
          { persisted := some gwRemoved, error := none
            objectWrites := 1, statusWrites := 0
            addHookInvoked := false, removeHookInvoked := hr.isConfigured }
    else
      if opts.finalizerName ≠ "" ∧ ¬ gw.finalizers.contains opts.finalizerName then
        let gwAdded := { gw with finalizers := (addFinalizer gw.finalizers opts.finalizerName).1 }
        match opts.addFinalizerFunc with
        | .fail msg =>
          { persisted := some gw
            error := some ("error executing pre-finalizer add function: " ++ msg)
            objectWrites := 0, statusWrites := 0
            addHookInvoked := true, removeHookInvoked := false }
        | hr =>
          match beh.patchError with
          | some e =>
            { persisted := some gw, error := some e
              objectWrites := 1, statusWrites := 0
              addHookInvoked := hr.isConfigured, removeHookInvoked := false }
          | none =>
            statusPhase gwAdded gwAdded beh 1 hr.isConfigured now
      else
        statusPhase gw gw beh 0 false now

end gateway

namespace tunables

/-- An input handed to the cache transform: the Go parameter has type
any; it is either a GatewayClass pointer or some other object (the
type assertion fails). -/
inductive CacheInput where
  | gatewayClassObj (gc : GatewayClass)
  | otherObject (kind : String)
deriving DecidableEq, Repr

/-- Embedding of tunables.TransformGatewayClass (with the configured
gwClassName). A failed type assertion logs and returns (nil, nil); a
GatewayClass whose Spec.ControllerName differs from the configured
class name is dropped the same way; a managed GatewayClass is returned
with its managed fields cleared. The first component none models the
nil object (drop); the second is the returned error. -/
def TransformGatewayClass (gwClassName : String) :
    CacheInput → Option CacheInput × Option String
  | .otherObject _ => (none, none)
  | .gatewayClassObj gc =>
    if gc.controllerName ≠ gwClassName then
      (none, none)
    else
      (some (.gatewayClassObj { gc with managedFields := [] }), none)

end tunables

namespace gateway

/-- Result of the client.Get of the referenced GatewayClass inside
matchManagedGatewayClass: success, a NotFound error, or any other
error. -/
inductive LookupResult where
  | found (gc : GatewayClass)
  | notFound
  | otherError (msg : String)
deriving DecidableEq, Repr

/-- An object handed to the predicate: a Gateway, or some other kind
(the type assertion fails). -/
inductive WatchObject where
  | gatewayObj (gw : Gateway)
  | otherObject (kind : String)
deriving DecidableEq, Repr

/-- Embedding of gateway.matchManagedGatewayClass with the client's
GatewayClass lookup abstracted as a function of the class name. A
non-Gateway object yields false; any lookup error (NotFound included)
yields false; only a successful lookup yields true. -/
def matchManagedGatewayClass (lookup : String → LookupResult) :
    WatchObject → Bool
  | .otherObject _ => false
  | .gatewayObj gw =>
    match lookup gw.gatewayClassName with
    | .found _ => true
    | .notFound => false
    | .otherError _ => false

end gateway

-- Sanity examples (concrete evaluation of the condition operations).

example :
    gateway.mutateConditions [] "Accepted" "Accepted" "True" "Gateway is accepted" 3 7 =
      [gateway.newConditionOf "Accepted" "Accepted" "True" "Gateway is accepted" 3 7] := by
  rfl

example :
    gateway.mutateConditionsInPlace [] "Accepted" "Accepted" "True" "Gateway is accepted" 3 7 =
      [] := by
  rfl

example : gatewayclass.markAsAccepted [] 3 7 = [] := by rfl

-- Concrete fixture objects used by the evaluation theorems below.

/-- A freshly created managed GatewayClass: no finalizer, no deletion
timestamp, empty status conditions. -/
def freshGC : GatewayClass :=
  { name := "gc", controllerName := "c1", generation := 4, deletionTimestamp := none,
    finalizers := [], conditions := [], managedFields := [] }

/-- GatewayClass controller options with finalizer "F" and hooks that
succeed. -/
def classOptsF : gatewayclass.GatewayClassOptions :=
  { finalizerName := "F", addFinalizerFunc := .ok, removeFinalizerFunc := .ok }

/-- A freshly created Gateway: no finalizer, no deletion timestamp,
empty status conditions. -/
def freshGW : Gateway :=
  { name := "gw", gatewayClassName := "gc", generation := 2, deletionTimestamp := none,
    finalizers := [], conditions := [] }

/-- Gateway controller options with finalizer "F" and hooks that
succeed. -/
def gwOptsF : gateway.GatewayOptions :=
  { finalizerName := "F", addFinalizerFunc := .ok, removeFinalizerFunc := .ok }

/-- A store in which every write succeeds. -/
def behOK : gateway.StoreBehavior :=
  { patchError := none, acceptedPatchError := none, programmedPatchError := none }

-- Helper lemmas about the upsert implemented by gateway.go mutateConditions.

/-- The returned list of the upsert has exactly one entry of the upsert
type when the input has at most one, and in general max 1 of the input
count: a replacement keeps the count, an append raises it to one. -/
theorem gateway.countP_upsert (nc : Condition) (cs : List Condition) :
    (gateway.mutateConditions.go nc cs).countP (fun c => decide (c.condType = nc.condType)) =
      max 1 (cs.countP (fun c => decide (c.condType = nc.condType))) := by
  induction cs with
  | nil => simp [gateway.mutateConditions.go]
  | cons c rest ih =>
    by_cases h : c.condType = nc.condType
    · simp [gateway.mutateConditions.go, h, List.countP_cons]
    · simp [gateway.mutateConditions.go, h, List.countP_cons, ih]

/-- If the input list carries at most one entry of the upsert type,
every entry of that type in the output is the freshly built condition. -/
theorem gateway.upsert_mem_eq (nc : Condition) (cs : List Condition)
    (h : cs.countP (fun c => decide (c.condType = nc.condType)) ≤ 1) :
    ∀ c ∈ gateway.mutateConditions.go nc cs, c.condType = nc.condType → c = nc := by
  induction cs with
  | nil =>
    intro c hc _
    simpa [gateway.mutateConditions.go] using hc
  | cons a rest ih =>
    by_cases ha : a.condType = nc.condType
    · intro c hc hcty
      rw [gateway.mutateConditions.go] at hc
      rw [if_pos ha] at hc
      rcases List.mem_cons.mp hc with rfl | hmem
      · rfl
      · exfalso
        simp only [List.countP_cons, ha] at h
        simp at h
        exact (h c hmem) hcty
    · intro c hc hcty
      rw [gateway.mutateConditions.go] at hc
      rw [if_neg ha] at hc
      rcases List.mem_cons.mp hc with rfl | hmem
      · exact absurd hcty ha
      · have hrest : rest.countP (fun c => decide (c.condType = nc.condType)) ≤ 1 := by
          simpa [List.countP_cons, ha] using h
        exact ih hrest c hmem hcty

/-- The upsert leaves every entry of a different type untouched, in
content and relative order. -/
theorem gateway.filter_upsert (nc : Condition) (cs : List Condition) :
    (gateway.mutateConditions.go nc cs).filter (fun c => ! decide (c.condType = nc.condType)) =
      cs.filter (fun c => ! decide (c.condType = nc.condType)) := by
  induction cs with
  | nil => simp [gateway.mutateConditions.go]
  | cons c rest ih =>
    by_cases h : c.condType = nc.condType
    · simp [gateway.mutateConditions.go, h]
    · simp [gateway.mutateConditions.go, h, ih]

/-- markAsAccepted maps any existing Accepted-typed entry to the
canonical accepted condition, so when one is present the output
contains that canonical condition. -/
theorem gatewayclass.markAsAccepted_mem (cs : List Condition) (gen : Int) (now : Nat)
    (h : ∃ c ∈ cs, c.condType = "Accepted") :
    ({ condType := "Accepted", status := "True", reason := "Accepted",
       message := "GatewayClass is accepted", lastTransitionTime := now,
       observedGeneration := gen } : Condition) ∈ gatewayclass.markAsAccepted cs gen now := by
  obtain ⟨c, hc, hty⟩ := h
  unfold gatewayclass.markAsAccepted
  refine List.mem_map.mpr ⟨c, hc, ?_⟩
  simp [hty]

-- Claim theorems.

/-- C10: for every input, the GatewayClass cache transform returns a nil
error: a drop (type mismatch or controller-class mismatch) is signaled
by a nil object with a nil error, never by a non-nil error. -/
theorem C10_transform_error_always_nil (cfg : String) (i : tunables.CacheInput) :
    (tunables.TransformGatewayClass cfg i).2 = none := by
  cases i with
  | otherObject k => rfl
  | gatewayClassObj gc =>
    by_cases h : gc.controllerName = cfg <;> simp [tunables.TransformGatewayClass, h]

/-- C7: the GatewayClass cache transform drops (returns a nil object
for) every GatewayClass whose controller name differs from the
configured identity and every non-GatewayClass input, and returns a
managed GatewayClass unchanged except for its managed fields, which are
cleared. -/
theorem C7_transform_gatewayclass (cfg : String) (gc : GatewayClass) (kind : String) :
    (gc.controllerName ≠ cfg →
      (tunables.TransformGatewayClass cfg (.gatewayClassObj gc)).1 = none)
    ∧ (gc.controllerName = cfg →
      (tunables.TransformGatewayClass cfg (.gatewayClassObj gc)).1 =
        some (.gatewayClassObj { gc with managedFields := [] }))
    ∧ (tunables.TransformGatewayClass cfg (.otherObject kind)).1 = none := by
  refine ⟨fun h => ?_, fun h => ?_, rfl⟩
  · simp [tunables.TransformGatewayClass, h]
  · simp [tunables.TransformGatewayClass, h]

/-- Witness for C7 at a concrete managed and a concrete unmanaged
GatewayClass. -/
theorem C7_transform_gatewayclass_witness :
    (tunables.TransformGatewayClass "c1"
      (.gatewayClassObj { freshGC with controllerName := "c2" })).1 = none
    ∧ (tunables.TransformGatewayClass "c1" (.gatewayClassObj freshGC)).1 =
        some (.gatewayClassObj { freshGC with managedFields := [] }) := by
  constructor
  · exact (C7_transform_gatewayclass "c1"
      { freshGC with controllerName := "c2" } "cm").1 (by decide)
  · exact (C7_transform_gatewayclass "c1" freshGC "cm").2.1 (by decide)

/-- C8: the admission predicate returns false for every non-Gateway
input, false whenever the GatewayClass lookup fails (NotFound or any
other error), and true exactly when the lookup succeeds. -/
theorem C8_match_managed_gatewayclass (lookup : String → gateway.LookupResult)
    (gw : Gateway) (kind : String) :
    (gateway.matchManagedGatewayClass lookup (.otherObject kind) = false)
    ∧ (lookup gw.gatewayClassName = .notFound →
        gateway.matchManagedGatewayClass lookup (.gatewayObj gw) = false)
    ∧ (∀ msg, lookup gw.gatewayClassName = .otherError msg →
        gateway.matchManagedGatewayClass lookup (.gatewayObj gw) = false)
    ∧ (gateway.matchManagedGatewayClass lookup (.gatewayObj gw) = true ↔
        ∃ gcFound, lookup gw.gatewayClassName = .found gcFound) := by
  refine ⟨rfl, fun h => ?_, fun msg h => ?_, ?_⟩
  · simp [gateway.matchManagedGatewayClass, h]
  · simp [gateway.matchManagedGatewayClass, h]
  · constructor
    · intro h
      cases hl : lookup gw.gatewayClassName with
      | found gcFound => exact ⟨gcFound, rfl⟩
      | notFound => simp [gateway.matchManagedGatewayClass, hl] at h
      | otherError msg => simp [gateway.matchManagedGatewayClass, hl] at h
    · rintro ⟨gcFound, hl⟩
      simp [gateway.matchManagedGatewayClass, hl]

/-- Witness for C8 at a concrete failing and a concrete succeeding
lookup. -/
theorem C8_match_managed_gatewayclass_witness :
    gateway.matchManagedGatewayClass (fun _ => .notFound) (.gatewayObj freshGW) = false
    ∧ gateway.matchManagedGatewayClass (fun _ => .found freshGC) (.gatewayObj freshGW) = true := by
  constructor
  · exact (C8_match_managed_gatewayclass (fun _ => .notFound) freshGW "cm").2.1 rfl
  · exact ((C8_match_managed_gatewayclass (fun _ => .found freshGC) freshGW "cm").2.2.2).mpr
      ⟨freshGC, rfl⟩

/-- C5: on a terminating object that carries the configured finalizer,
a failing pre-removal hook aborts the reconcile before any store write:
the persisted object (its finalizer list included) is unchanged, no
write is attempted, and the returned error wraps the hook's message.
Both reconcilers behave this way. -/
theorem C5_remove_hook_failure_aborts
    (gc : GatewayClass) (copts : gatewayclass.GatewayClassOptions)
    (gw : Gateway) (gopts : gateway.GatewayOptions) (beh : gateway.StoreBehavior)
    (now : Nat) (msgC msgG : String)
    (hgcDel : gc.deletionTimestamp.isSome)
    (hcName : copts.finalizerName ≠ "")
    (hcMem : gc.finalizers.contains copts.finalizerName)
    (hcHook : copts.removeFinalizerFunc = .fail msgC)
    (hgwDel : gw.deletionTimestamp.isSome)
    (hgName : gopts.finalizerName ≠ "")
    (hgMem : gw.finalizers.contains gopts.finalizerName)
    (hgHook : gopts.removeFinalizerFunc = .fail msgG) :
    (gatewayclass.Reconcile (some gc) copts now).persisted = some gc
    ∧ (gatewayclass.Reconcile (some gc) copts now).objectWrites = 0
    ∧ (gatewayclass.Reconcile (some gc) copts now).statusWrites = 0
    ∧ (gatewayclass.Reconcile (some gc) copts now).error =
        some ("error executing pre-finalizer removal function: " ++ msgC)
    ∧ (gateway.Reconcile (some gw) gopts beh now).persisted = some gw
    ∧ (gateway.Reconcile (some gw) gopts beh now).objectWrites = 0
    ∧ (gateway.Reconcile (some gw) gopts beh now).statusWrites = 0
    ∧ (gateway.Reconcile (some gw) gopts beh now).error =
        some ("error executing pre-finalizer removal function: " ++ msgG) := by
  have hcEq : gatewayclass.Reconcile (some gc) copts now =
      { persisted := some gc
        error := some ("error executing pre-finalizer removal function: " ++ msgC)
        objectWrites := 0, statusWrites := 0
        addHookInvoked := false, removeHookInvoked := true } := by
    simp only [gatewayclass.Reconcile]
    rw [if_pos ⟨hgcDel, hcName, hcMem⟩, hcHook]
  have hgEq : gateway.Reconcile (some gw) gopts beh now =
      { persisted := some gw
        error := some ("error executing pre-finalizer removal function: " ++ msgG)
        objectWrites := 0, statusWrites := 0
        addHookInvoked := false, removeHookInvoked := true } := by
    simp only [gateway.Reconcile]
    rw [if_pos ⟨hgwDel, hgName, hgMem⟩, hgHook]
  rw [hcEq, hgEq]
  exact ⟨rfl, rfl, rfl, rfl, rfl, rfl, rfl, rfl⟩

/-- Witness for C5 at concrete terminating objects with failing
pre-removal hooks. -/
theorem C5_remove_hook_failure_aborts_witness :
    (gatewayclass.Reconcile
        (some { freshGC with deletionTimestamp := some 3, finalizers := ["F"] })
        { classOptsF with removeFinalizerFunc := .fail "boom" } 1).persisted =
      some { freshGC with deletionTimestamp := some 3, finalizers := ["F"] }
    ∧ (gatewayclass.Reconcile
        (some { freshGC with deletionTimestamp := some 3, finalizers := ["F"] })
        { classOptsF with removeFinalizerFunc := .fail "boom" } 1).objectWrites = 0
    ∧ (gatewayclass.Reconcile
        (some { freshGC with deletionTimestamp := some 3, finalizers := ["F"] })
        { classOptsF with removeFinalizerFunc := .fail "boom" } 1).statusWrites = 0
    ∧ (gatewayclass.Reconcile
        (some { freshGC with deletionTimestamp := some 3, finalizers := ["F"] })
        { classOptsF with removeFinalizerFunc := .fail "boom" } 1).error =
        some ("error executing pre-finalizer removal function: " ++ "boom")
    ∧ (gateway.Reconcile
        (some { freshGW with deletionTimestamp := some 3, finalizers := ["F"] })
        { gwOptsF with removeFinalizerFunc := .fail "oops" } behOK 1).persisted =
      some { freshGW with deletionTimestamp := some 3, finalizers := ["F"] }
    ∧ (gateway.Reconcile
        (some { freshGW with deletionTimestamp := some 3, finalizers := ["F"] })
        { gwOptsF with removeFinalizerFunc := .fail "oops" } behOK 1).objectWrites = 0
    ∧ (gateway.Reconcile
        (some { freshGW with deletionTimestamp := some 3, finalizers := ["F"] })
        { gwOptsF with removeFinalizerFunc := .fail "oops" } behOK 1).statusWrites = 0
    ∧ (gateway.Reconcile
        (some { freshGW with deletionTimestamp := some 3, finalizers := ["F"] })
        { gwOptsF with removeFinalizerFunc := .fail "oops" } behOK 1).error =
        some ("error executing pre-finalizer removal function: " ++ "oops") :=
  C5_remove_hook_failure_aborts
    { freshGC with deletionTimestamp := some 3, finalizers := ["F"] }
    { classOptsF with removeFinalizerFunc := .fail "boom" }
    { freshGW with deletionTimestamp := some 3, finalizers := ["F"] }
    { gwOptsF with removeFinalizerFunc := .fail "oops" } behOK 1 "boom" "oops"
    (by decide) (by decide) (by decide) (by decide)
    (by decide) (by decide) (by decide) (by decide)

/-- C6: reconciling a non-terminating object that already carries the
configured finalizer leaves the persisted finalizer list unchanged and
never invokes the pre-add hook, in both reconcilers and under any store
behavior. -/
theorem C6_finalizer_add_idempotent
    (gc : GatewayClass) (copts : gatewayclass.GatewayClassOptions)
    (gw : Gateway) (gopts : gateway.GatewayOptions) (beh : gateway.StoreBehavior)
    (now : Nat)
    (hgcDel : gc.deletionTimestamp = none)
    (hcMem : gc.finalizers.contains copts.finalizerName)
    (hgwDel : gw.deletionTimestamp = none)
    (hgMem : gw.finalizers.contains gopts.finalizerName) :
    (gatewayclass.Reconcile (some gc) copts now).persisted.map GatewayClass.finalizers =
      some gc.finalizers
    ∧ (gatewayclass.Reconcile (some gc) copts now).addHookInvoked = false
    ∧ (gateway.Reconcile (some gw) gopts beh now).persisted.map Gateway.finalizers =
      some gw.finalizers
    ∧ (gateway.Reconcile (some gw) gopts beh now).addHookInvoked = false := by
  have hcEq : gatewayclass.Reconcile (some gc) copts now = gatewayclass.retryBody gc copts now := by
    simp only [gatewayclass.Reconcile]
    rw [if_neg]
    simp [hgcDel]
  have hcMem2 : copts.finalizerName ∈ gc.finalizers := by simpa using hcMem
  have hgMem2 : gopts.finalizerName ∈ gw.finalizers := by simpa using hgMem
  have hcBody : gatewayclass.retryBody gc copts now =
      { persisted := some { gc with conditions := gatewayclass.markAsAccepted gc.conditions gc.generation now }
        error := none, objectWrites := 0, statusWrites := 1
        addHookInvoked := false, removeHookInvoked := false } := by
    simp only [gatewayclass.retryBody]
    rw [if_neg]
    simp [hcMem2]
  have hgEq : gateway.Reconcile (some gw) gopts beh now = gateway.statusPhase gw gw beh 0 false now := by
    simp only [gateway.Reconcile]
    rw [if_neg, if_neg]
    · simp [hgMem2]
    · simp [hgwDel]
  refine ⟨?_, ?_, ?_, ?_⟩
  · rw [hcEq, hcBody]; rfl
  · rw [hcEq, hcBody]
  · rw [hgEq]
    unfold gateway.statusPhase
    cases beh.acceptedPatchError with
    | some e => rfl
    | none =>
      cases beh.programmedPatchError with
      | some e => rfl
      | none => rfl
  · rw [hgEq]
    unfold gateway.statusPhase
    cases beh.acceptedPatchError with
    | some e => rfl
    | none =>
      cases beh.programmedPatchError with
      | some e => rfl
      | none => rfl

/-- Witness for C6 at concrete objects that already carry finalizer "F". -/
theorem C6_finalizer_add_idempotent_witness :
    (gatewayclass.Reconcile (some { freshGC with finalizers := ["F"] }) classOptsF 1).persisted.map
        GatewayClass.finalizers = some ({ freshGC with finalizers := ["F"] } : GatewayClass).finalizers
    ∧ (gatewayclass.Reconcile (some { freshGC with finalizers := ["F"] }) classOptsF 1).addHookInvoked = false
    ∧ (gateway.Reconcile (some { freshGW with finalizers := ["F"] }) gwOptsF behOK 1).persisted.map
        Gateway.finalizers = some ({ freshGW with finalizers := ["F"] } : Gateway).finalizers
    ∧ (gateway.Reconcile (some { freshGW with finalizers := ["F"] }) gwOptsF behOK 1).addHookInvoked = false :=
  C6_finalizer_add_idempotent
    { freshGC with finalizers := ["F"] } classOptsF
    { freshGW with finalizers := ["F"] } gwOptsF behOK 1
    (by decide) (by decide) (by decide) (by decide)

/-- C9 counterexample: the Class reconciler's condition upsert
(markAsAccepted) applied twice with identical arguments to the empty
conditions list yields the empty list: no entry of the given name
exists afterwards, refuting that the double upsert always leaves
exactly one entry of that name. -/
theorem C9_counterexample :
    gatewayclass.markAsAccepted (gatewayclass.markAsAccepted [] 3 1) 3 2 = []
    ∧ (gatewayclass.markAsAccepted (gatewayclass.markAsAccepted [] 3 1) 3 2).countP
        (fun c => decide (c.condType = "Accepted")) = 0 :=
  ⟨rfl, rfl⟩

/-- C9 amended: for the Dependent reconciler's upsert (mutateConditions,
as the list it returns), on any input list holding at most one entry of
the given type, applying the upsert twice with identical arguments
yields a list with exactly one entry of that type, that entry carries
the given status, reason, message and generation (stamped with the
second call's timestamp), and every entry of another type is preserved
in content and relative order. -/
theorem C9_upsert_idempotent_content (cs : List Condition)
    (condtype reason status message : String) (gen : Int) (now1 now2 : Nat)
    (h : cs.countP (fun c => decide (c.condType = condtype)) ≤ 1) :
    ((gateway.mutateConditions (gateway.mutateConditions cs condtype reason status message gen now1)
        condtype reason status message gen now2).countP
        (fun c => decide (c.condType = condtype)) = 1)
    ∧ (∀ c ∈ gateway.mutateConditions
          (gateway.mutateConditions cs condtype reason status message gen now1)
          condtype reason status message gen now2,
        c.condType = condtype → c = gateway.newConditionOf condtype reason status message gen now2)
    ∧ ((gateway.mutateConditions (gateway.mutateConditions cs condtype reason status message gen now1)
          condtype reason status message gen now2).filter
          (fun c => ! decide (c.condType = condtype)) =
        cs.filter (fun c => ! decide (c.condType = condtype))) := by
  have e1 := gateway.countP_upsert (gateway.newConditionOf condtype reason status message gen now1) cs
  have e2 := gateway.countP_upsert (gateway.newConditionOf condtype reason status message gen now2)
      (gateway.mutateConditions.go (gateway.newConditionOf condtype reason status message gen now1) cs)
  simp only [gateway.newConditionOf] at e1 e2
  have hOne : (gateway.mutateConditions.go
      (gateway.newConditionOf condtype reason status message gen now1) cs).countP
      (fun c => decide (c.condType = condtype)) ≤ 1 := by
    simp only [gateway.newConditionOf]
    omega
  refine ⟨?_, ?_, ?_⟩
  · simp only [gateway.mutateConditions, gateway.newConditionOf] at *
    omega
  · simp only [gateway.mutateConditions]
    exact gateway.upsert_mem_eq (gateway.newConditionOf condtype reason status message gen now2)
      (gateway.mutateConditions.go (gateway.newConditionOf condtype reason status message gen now1) cs)
      hOne
  · simp only [gateway.mutateConditions, gateway.newConditionOf]
    have f2 := gateway.filter_upsert (gateway.newConditionOf condtype reason status message gen now2)
      (gateway.mutateConditions.go (gateway.newConditionOf condtype reason status message gen now1) cs)
    have f1 := gateway.filter_upsert (gateway.newConditionOf condtype reason status message gen now1) cs
    simp only [gateway.newConditionOf] at f1 f2
    rw [f2, f1]

/-- A conditions list with one unrelated entry and no Accepted entry,
used to instantiate the upsert theorems. -/
def readyOnly : List Condition :=
  [{ condType := "Ready", status := "False", reason := "Pending", message := "waiting",
     lastTransitionTime := 0, observedGeneration := 1 }]

/-- Witness for the amended C9 at a concrete list without a matching
entry. -/
theorem C9_upsert_idempotent_content_witness :
    ((gateway.mutateConditions (gateway.mutateConditions readyOnly "Accepted" "Accepted" "True" "ok" 5 1)
        "Accepted" "Accepted" "True" "ok" 5 2).countP
        (fun c => decide (c.condType = "Accepted")) = 1)
    ∧ (∀ c ∈ gateway.mutateConditions
          (gateway.mutateConditions readyOnly "Accepted" "Accepted" "True" "ok" 5 1)
          "Accepted" "Accepted" "True" "ok" 5 2,
        c.condType = "Accepted" → c = gateway.newConditionOf "Accepted" "Accepted" "True" "ok" 5 2)
    ∧ ((gateway.mutateConditions (gateway.mutateConditions readyOnly "Accepted" "Accepted" "True" "ok" 5 1)
          "Accepted" "Accepted" "True" "ok" 5 2).filter
          (fun c => ! decide (c.condType = "Accepted")) =
        readyOnly.filter (fun c => ! decide (c.condType = "Accepted"))) :=
  C9_upsert_idempotent_content readyOnly "Accepted" "Accepted" "True" "ok" 5 1 2 (by decide)

/-- C1 counterexample: a managed GatewayClass whose status conditions
are empty. The first reconcile adds the finalizer without a status
write, and the second performs the status write, but the written status
holds no Accepted condition at all: markAsAccepted has no append
branch, so the claim's unconditional "status containing Accepted=true"
fails. -/
theorem C1_counterexample :
    (gatewayclass.Reconcile (some freshGC) classOptsF 1).error = none
    ∧ (gatewayclass.Reconcile (some freshGC) classOptsF 1).statusWrites = 0
    ∧ (gatewayclass.Reconcile (some freshGC) classOptsF 1).persisted =
        some { freshGC with finalizers := ["F"] }
    ∧ (gatewayclass.Reconcile (gatewayclass.Reconcile (some freshGC) classOptsF 1).persisted
        classOptsF 2).statusWrites = 1
    ∧ (gatewayclass.Reconcile (gatewayclass.Reconcile (some freshGC) classOptsF 1).persisted
        classOptsF 2).error = none
    ∧ (gatewayclass.Reconcile (gatewayclass.Reconcile (some freshGC) classOptsF 1).persisted
        classOptsF 2).persisted = some { freshGC with finalizers := ["F"] } := by
  refine ⟨rfl, rfl, rfl, rfl, rfl, rfl⟩

/-- The Accepted=Unknown condition that the GatewayClass CRD's status
defaulting installs on a fresh object. -/
def accUnknown : Condition :=
  { condType := "Accepted", status := "Unknown", reason := "Waiting", message := "w",
    lastTransitionTime := 0, observedGeneration := 1 }

/-- freshGC with the defaulted Accepted=Unknown condition present. -/
def gcWithAcc : GatewayClass :=
  { freshGC with conditions := [accUnknown] }

/-- C1 amended: scenario A holds when, in addition, the object's status
already contains a condition of type Accepted (which the GatewayClass
CRD's status defaulting provides in a real cluster) and the configured
pre-add hook does not fail: the first reconcile adds the configured
finalizer with no status write, and the second reconcile performs
exactly one status write whose conditions contain Accepted=true with
reason "Accepted" and observed generation equal to the object's
generation. -/
theorem C1_two_reconciles_accept (gc : GatewayClass)
    (opts : gatewayclass.GatewayClassOptions) (className : String) (now1 now2 : Nat)
    (hcc : gc.controllerName = className)
    (hdel : gc.deletionTimestamp = none)
    (hfin : gc.finalizers = [])
    (hname : opts.finalizerName ≠ "")
    (hhook : opts.addFinalizerFunc.isFail = false)
    (hacc : ∃ c ∈ gc.conditions, c.condType = "Accepted") :
    (gatewayclass.Reconcile (some gc) opts now1).error = none
    ∧ (gatewayclass.Reconcile (some gc) opts now1).statusWrites = 0
    ∧ (gatewayclass.Reconcile (some gc) opts now1).objectWrites = 1
    ∧ (gatewayclass.Reconcile (some gc) opts now1).persisted =
        some { gc with finalizers := [opts.finalizerName] }
    ∧ (gatewayclass.Reconcile (gatewayclass.Reconcile (some gc) opts now1).persisted
        opts now2).statusWrites = 1
    ∧ (gatewayclass.Reconcile (gatewayclass.Reconcile (some gc) opts now1).persisted
        opts now2).error = none
    ∧ ∃ gcAfter, (gatewayclass.Reconcile (gatewayclass.Reconcile (some gc) opts now1).persisted
        opts now2).persisted = some gcAfter
      ∧ ({ condType := "Accepted", status := "True", reason := "Accepted",
           message := "GatewayClass is accepted", lastTransitionTime := now2,
           observedGeneration := gc.generation } : Condition) ∈ gcAfter.conditions := by
  have hr1 : gatewayclass.Reconcile (some gc) opts now1 =
      { persisted := some { gc with finalizers := [opts.finalizerName] }
        error := none, objectWrites := 1, statusWrites := 0
        addHookInvoked := opts.addFinalizerFunc.isConfigured, removeHookInvoked := false } := by
    simp only [gatewayclass.Reconcile]
    rw [if_neg]
    · simp only [gatewayclass.retryBody]
      rw [if_pos]
      · have haf : addFinalizer gc.finalizers opts.finalizerName = ([opts.finalizerName], true) := by
          rw [hfin]
          simp [addFinalizer]
        cases hcase : opts.addFinalizerFunc with
        | fail msg => rw [hcase] at hhook; simp [HookResult.isFail] at hhook
        | ok => simp [hcase, haf, HookResult.isConfigured]
        | notConfigured => simp [hcase, haf, HookResult.isConfigured]
      · exact ⟨hname, by simp [hfin]⟩
    · simp [hdel]
  have hr2 : gatewayclass.Reconcile (some { gc with finalizers := [opts.finalizerName] }) opts now2 =
      { persisted := some { gc with
          finalizers := [opts.finalizerName]
          conditions := gatewayclass.markAsAccepted gc.conditions gc.generation now2 }
        error := none, objectWrites := 0, statusWrites := 1
        addHookInvoked := false, removeHookInvoked := false } := by
    simp only [gatewayclass.Reconcile]
    rw [if_neg]
    · simp only [gatewayclass.retryBody]
      rw [if_neg]
      · simp
    · simp [hdel]
  rw [hr1]
  refine ⟨rfl, rfl, rfl, rfl, ?_, ?_, ?_⟩
  · simp only [hr2]
  · simp only [hr2]
  · refine ⟨{ gc with
        finalizers := [opts.finalizerName]
        conditions := gatewayclass.markAsAccepted gc.conditions gc.generation now2 }, ?_, ?_⟩
    · simp only [hr2]
    · exact gatewayclass.markAsAccepted_mem gc.conditions gc.generation now2 hacc

/-- Witness for the amended C1 at a concrete managed GatewayClass whose
status starts with an Accepted=Unknown condition. -/
theorem C1_two_reconciles_accept_witness :
    (gatewayclass.Reconcile (some gcWithAcc) classOptsF 1).error = none
    ∧ (gatewayclass.Reconcile (some gcWithAcc) classOptsF 1).statusWrites = 0
    ∧ (gatewayclass.Reconcile (some gcWithAcc) classOptsF 1).objectWrites = 1
    ∧ (gatewayclass.Reconcile (some gcWithAcc) classOptsF 1).persisted =
        some { gcWithAcc with finalizers := ["F"] }
    ∧ (gatewayclass.Reconcile (gatewayclass.Reconcile (some gcWithAcc) classOptsF 1).persisted
        classOptsF 2).statusWrites = 1
    ∧ (gatewayclass.Reconcile (gatewayclass.Reconcile (some gcWithAcc) classOptsF 1).persisted
        classOptsF 2).error = none
    ∧ ∃ gcAfter, (gatewayclass.Reconcile (gatewayclass.Reconcile (some gcWithAcc) classOptsF 1).persisted
        classOptsF 2).persisted = some gcAfter
      ∧ ({ condType := "Accepted", status := "True", reason := "Accepted",
           message := "GatewayClass is accepted", lastTransitionTime := 2,
           observedGeneration := gcWithAcc.generation } : Condition) ∈ gcAfter.conditions :=
  C1_two_reconciles_accept gcWithAcc classOptsF "c1" 1 2
    (by decide) (by decide) (by decide) (by decide) (by decide)
    ⟨accUnknown, by decide, by decide⟩

/-- C2 evaluation at the failing input (the empty conditions list): the
upsert value returned by mutateConditions does append the new entry,
but the Dependent reconciler discards that return value, so a fully
successful reconcile of a fresh Gateway persists the object with the
conditions still empty; and the Class reconciler's upsert
(markAsAccepted) has no append branch at all. The persisted list is
therefore not the upsert's resulting list. -/
theorem C2_appended_entry_not_persisted :
    gateway.mutateConditions [] "Accepted" "Accepted" "True" "Gateway is accepted" 2 1 =
      [gateway.newConditionOf "Accepted" "Accepted" "True" "Gateway is accepted" 2 1]
    ∧ (gateway.Reconcile (some freshGW) gwOptsF behOK 1).error = none
    ∧ (gateway.Reconcile (some freshGW) gwOptsF behOK 1).statusWrites = 2
    ∧ (gateway.Reconcile (some freshGW) gwOptsF behOK 1).persisted =
        some { freshGW with finalizers := ["F"] }
    ∧ gatewayclass.markAsAccepted [] 2 1 = [] := by
  refine ⟨rfl, ?_, ?_, ?_, rfl⟩ <;> decide

/-- C3 evaluation at the failing input (a terminating object that does
not carry the configured finalizer): instead of a no-op, both
reconcilers fall through to the normal path, invoke the pre-add hook,
add the finalizer to a terminating object and perform writes. -/
theorem C3_terminating_without_finalizer_not_noop :
    (gatewayclass.Reconcile (some { freshGC with deletionTimestamp := some 5 })
        classOptsF 1).addHookInvoked = true
    ∧ (gatewayclass.Reconcile (some { freshGC with deletionTimestamp := some 5 })
        classOptsF 1).objectWrites = 1
    ∧ (gatewayclass.Reconcile (some { freshGC with deletionTimestamp := some 5 })
        classOptsF 1).persisted =
        some { freshGC with deletionTimestamp := some 5, finalizers := ["F"] }
    ∧ (gateway.Reconcile (some { freshGW with deletionTimestamp := some 5 })
        gwOptsF behOK 1).addHookInvoked = true
    ∧ (gateway.Reconcile (some { freshGW with deletionTimestamp := some 5 })
        gwOptsF behOK 1).objectWrites = 1
    ∧ (gateway.Reconcile (some { freshGW with deletionTimestamp := some 5 })
        gwOptsF behOK 1).statusWrites = 2
    ∧ (gateway.Reconcile (some { freshGW with deletionTimestamp := some 5 })
        gwOptsF behOK 1).persisted =
        some { freshGW with deletionTimestamp := some 5, finalizers := ["F"] } := by
  refine ⟨?_, ?_, ?_, ?_, ?_, ?_, ?_⟩ <;> decide

/-- C4 evaluation at the failing input (a fresh Gateway with empty
status conditions): a fully successful reconcile performs both status
writes yet persists the object with conditions still empty, so neither
Accepted=true nor Programmed=true is present (the appended conditions
were discarded with the mutateConditions return value). The
error-ordering half of the claim does hold: a failing Accepted write
stops after one status write with a wrapped error, and a failing
Programmed write propagates its wrapped error after the Accepted write. -/
theorem C4_fresh_gateway_status_conditions_lost :
    (gateway.Reconcile (some freshGW) gwOptsF behOK 1).error = none
    ∧ (gateway.Reconcile (some freshGW) gwOptsF behOK 1).statusWrites = 2
    ∧ (gateway.Reconcile (some freshGW) gwOptsF behOK 1).persisted =
        some { freshGW with finalizers := ["F"] }
    ∧ (gateway.Reconcile (some freshGW) gwOptsF
        { behOK with acceptedPatchError := some "boom" } 1).statusWrites = 1
    ∧ (gateway.Reconcile (some freshGW) gwOptsF
        { behOK with acceptedPatchError := some "boom" } 1).error =
        some "error adding accepted condition on gw: boom"
    ∧ (gateway.Reconcile (some freshGW) gwOptsF
        { behOK with programmedPatchError := some "oops" } 1).statusWrites = 2
    ∧ (gateway.Reconcile (some freshGW) gwOptsF
        { behOK with programmedPatchError := some "oops" } 1).error =
        some "error adding programmed condition on gw: oops"
    ∧ (gateway.Reconcile (some freshGW) gwOptsF
        { behOK with programmedPatchError := some "oops" } 1).persisted =
        some { freshGW with finalizers := ["F"] } := by
  refine ⟨?_, ?_, ?_, ?_, ?_, ?_, ?_, ?_⟩ <;> decide
